import Mathlib

/-!
Verification of the FHE debugger frontend core
(`fhe-debugger-frontend/src/App.tsx`): the graph translator
`dataToGraph` and the selection coordinator (`updateLine`,
`updateSelection`), shallowly embedded in Lean 4.

Two embeddings of the operation payload are used, both read off the
source file:

* the *typed* model follows the declared TypeScript types
  (`FheProgramOperation` is the closed discriminated union with a
  `kind` tag declared at lines 104-125);
* the *parsed* model follows the runtime values produced by
  `JSON.parse` of the `sampleData` string literal (line 171), in which
  an operation is either a bare variant-name string (e.g. `"Multiply"`)
  or a single-key object (e.g. `\x7b"InputCiphertext":0\x7d`) and in
  particular carries no `kind` property.
-/

namespace Sunscreen

/-- The TS union `type EdgeType = 'Left' | 'Right' | 'Unary'`. -/
inductive EdgeType : Type
  | Left
  | Right
  | Unary
  deriving DecidableEq, Repr

/-- String value of an edge-type tag, as it appears in JS values. -/
def edgeTypeStr : EdgeType → String
  | .Left => "Left"
  | .Right => "Right"
  | .Unary => "Unary"

/-- The closed TS discriminated union `FheProgramOperation`
(`InputCiphertextOp | MultiplyOp | AddOp | RelinearizeOp | OutputCiphertextOp`),
with the `data` payload of `InputCiphertextOp`. -/
inductive FheProgramOperation : Type
  | inputCiphertext (data : Nat)
  | multiply
  | add
  | relinearize
  | outputCiphertext
  deriving DecidableEq, Repr

/-- TS `type FheProgramNode = { operation: FheProgramOperation }`. -/
structure FheProgramNode : Type where
  operation : FheProgramOperation
  deriving DecidableEq, Repr

/-- TS `type FheProgramEdge = [number, number, EdgeType]`. -/
abbrev FheProgramEdge : Type := Nat × Nat × EdgeType

/-- TS `type FheProgramGraph = { nodes: ...; edges: ... }`. -/
structure FheProgramGraph : Type where
  nodes : List FheProgramNode
  edges : List FheProgramEdge
  deriving DecidableEq

/-- A JS object pushed onto the `nodes` array of the render graph.
`dataToGraph` produces objects with fields `id`, `title`, `type`;
the hardcoded graph in `updateLine` additionally has `x` and `y`
(absent fields are modelled as `none`). -/
structure GNode : Type where
  id : Nat
  title : String
  type : String
  x : Option Int := none
  y : Option Int := none
  deriving DecidableEq, Repr

/-- A JS object pushed onto the `edges` array of the render graph.
`dataToGraph` produces `\x7bsource, target, type\x7d`; the hardcoded
graph in `updateLine` produces `\x7bsource, target, directed, arrowhead\x7d`
(absent fields are modelled as `none`). -/
structure GEdge : Type where
  source : Nat
  target : Nat
  type : Option String := none
  directed : Option Bool := none
  arrowhead : Option String := none
  deriving DecidableEq, Repr

/-- The value returned by `dataToGraph` and held in the `currGraph`
state: `\x7bnodes: ..., edges: ...\x7d`. -/
structure GGraph : Type where
  nodes : List GNode
  edges : List GEdge
  deriving DecidableEq, Repr

/-- `JSON.stringify` of a typed `FheProgramOperation` value, i.e. of a
JS object such as `\x7bkind: 'Add'\x7d`. -/
def stringifyOp : FheProgramOperation → String
  | .inputCiphertext d => "\x7b\"kind\":\"InputCiphertext\",\"data\":" ++ toString d ++ "\x7d"
  | .multiply => "\x7b\"kind\":\"Multiply\"\x7d"
  | .add => "\x7b\"kind\":\"Add\"\x7d"
  | .relinearize => "\x7b\"kind\":\"Relinearize\"\x7d"
  | .outputCiphertext => "\x7b\"kind\":\"OutputCiphertext\"\x7d"

/-- One iteration of the node loop of `dataToGraph` (App.tsx lines
148-161): the `switch (op.kind)` has a distinct branch only for
`'InputCiphertext'` (pushing `\x7bid: i, title: JSON.stringify(op.data),
type: 'input'\x7d`); the four other named cases and `default` all fall
through to pushing `\x7bid: i, title: JSON.stringify(op), type: 'empty'\x7d`. -/
def renderNode (i : Nat) (nd : FheProgramNode) : GNode :=
  match nd.operation with
  | .inputCiphertext d => { id := i, title := toString d, type := "input" }
  | op => { id := i, title := stringifyOp op, type := "empty" }

/-- The node loop `for (let i = 0; i < data.nodes.length; ++i)` of
`dataToGraph`, with `k` the index of the first remaining node. -/
def buildNodes (k : Nat) : List FheProgramNode → List GNode
  | [] => []
  | nd :: rest => renderNode k nd :: buildNodes (k + 1) rest

/-- One iteration of the edge loop of `dataToGraph` (lines 162-164):
`edges.push(\x7bsource: e[0], target: e[1], type: e[2]\x7d)`. -/
def renderEdge (e : FheProgramEdge) : GEdge :=
  { source := e.1, target := e.2.1, type := some (edgeTypeStr e.2.2) }

set_option linter.unusedVariables false

/-- The translator `dataToGraph` (App.tsx lines 144-166) over the
declared input type `FheProgramGraph`.  Note that the second parameter
`incRelin` is never read in the body, and that the body performs no
validation of node or edge indices and can take no error exit. -/
def dataToGraph (data : FheProgramGraph) (incRelin : Bool) : GGraph :=
  { nodes := buildNodes 0 data.nodes
    edges := data.edges.map renderEdge }

/-! ## The parsed (runtime) model

`sampleData` is produced by `JSON.parse` (App.tsx line 171), so at
runtime an operation value is not a `kind`-tagged record but one of the
wire encodings of spec §6: a bare variant-name string such as
`"Multiply"`, or a single-key object `\x7b"InputCiphertext": slot\x7d`
mapping the variant name to a slot number.  The following definitions
embed `dataToGraph`'s behaviour on those runtime values. -/

/-- A JS value that can result from reading a property of a parsed
operation: `undefined` when the property is absent, or the number held
under the key. -/
inductive JsVal : Type
  | undefined
  | num (n : Nat)
  | str (s : String)
  deriving DecidableEq, Repr

/-- A parsed operation value as it occurs in the serialized wire format
(spec §6): a bare variant-name string, or a single-key object mapping a
variant name to a slot number. -/
inductive ParsedOp : Type
  | str (s : String)
  | obj (key : String) (val : Nat)
  deriving DecidableEq, Repr

/-- The JS property access `op.kind` on a parsed operation: a string has
no `kind` property, and a single-key object has one only if its key is
literally `"kind"` (in which case the value is a number, not a string). -/
def ParsedOp.kindProp : ParsedOp → JsVal
  | .str _ => .undefined
  | .obj k v => if k = "kind" then .num v else .undefined

/-- The JS property access `op.data` on a parsed operation. -/
def ParsedOp.dataProp : ParsedOp → JsVal
  | .str _ => .undefined
  | .obj k v => if k = "data" then .num v else .undefined

/-- `JSON.stringify` of a parsed operation value. -/
def stringifyParsedOp : ParsedOp → String
  | .str s => "\"" ++ s ++ "\""
  | .obj k v => "\x7b\"" ++ k ++ "\":" ++ toString v ++ "\x7d"

/-- `JSON.stringify` of a property value (used only in the
`'InputCiphertext'` branch of the switch, which is unreachable on
parsed operations because `op.kind` is never the string
`"InputCiphertext"` there). -/
def stringifyJsVal : JsVal → String
  | .undefined => "undefined"
  | .num n => toString n
  | .str s => "\"" ++ s ++ "\""

/-- A parsed node `\x7boperation: ...\x7d`. -/
structure ParsedNode : Type where
  operation : ParsedOp
  deriving DecidableEq, Repr

/-- A parsed edge `[source, target, roleString]`. -/
abbrev ParsedEdge : Type := Nat × Nat × String

/-- The parsed graph object found under `sampleData.graph.graph`. -/
structure ParsedGraph : Type where
  nodes : List ParsedNode
  edges : List ParsedEdge
  deriving DecidableEq

/-- One iteration of the node loop of `dataToGraph` on a parsed node:
`switch (op.kind)` matches the `'InputCiphertext'` case exactly when the
property `op.kind` equals that string; every other value of `op.kind`
(including `undefined`) reaches the shared fall-through/`default` push. -/
def renderNodeParsed (i : Nat) (nd : ParsedNode) : GNode :=
  if nd.operation.kindProp = JsVal.str "InputCiphertext" then
    { id := i, title := stringifyJsVal nd.operation.dataProp, type := "input" }
  else
    { id := i, title := stringifyParsedOp nd.operation, type := "empty" }

/-- The node loop of `dataToGraph` on parsed nodes. -/
def buildNodesParsed (k : Nat) : List ParsedNode → List GNode
  | [] => []
  | nd :: rest => renderNodeParsed k nd :: buildNodesParsed (k + 1) rest

/-- The edge loop of `dataToGraph` on a parsed edge. -/
def renderEdgeParsed (e : ParsedEdge) : GEdge :=
  { source := e.1, target := e.2.1, type := some e.2.2 }

/-- `dataToGraph` (App.tsx lines 144-166) applied to the runtime values
produced by `JSON.parse`, i.e. the function the running program
actually computes on the serialized payload. -/
def dataToGraphParsed (data : ParsedGraph) : GGraph :=
  { nodes := buildNodesParsed 0 data.nodes
    edges := data.edges.map renderEdgeParsed }

/-! ## The sample payload -/

/-- The node list of the `sampleData` payload (App.tsx line 171),
transcribed into the declared (typed) data model: four
`InputCiphertext` nodes with slots 0-3, three `Multiply`, one `Add`,
two `OutputCiphertext`, three `Relinearize`. -/
def sampleNodes : List FheProgramNode :=
  [⟨.inputCiphertext 0⟩, ⟨.inputCiphertext 1⟩, ⟨.inputCiphertext 2⟩,
   ⟨.inputCiphertext 3⟩, ⟨.multiply⟩, ⟨.multiply⟩, ⟨.multiply⟩, ⟨.add⟩,
   ⟨.outputCiphertext⟩, ⟨.outputCiphertext⟩, ⟨.relinearize⟩,
   ⟨.relinearize⟩, ⟨.relinearize⟩]

/-- The 13 edges of the `sampleData` payload. -/
def sampleEdges : List FheProgramEdge :=
  [(0, 4, .Left), (3, 4, .Right), (1, 5, .Left), (2, 5, .Right),
   (1, 6, .Left), (3, 6, .Right), (12, 7, .Left), (10, 7, .Right),
   (7, 8, .Unary), (11, 9, .Unary), (5, 10, .Unary), (6, 11, .Unary),
   (4, 12, .Unary)]

/-- The graph content of the `sampleData` payload in the typed model. -/
def sampleGraph : FheProgramGraph := ⟨sampleNodes, sampleEdges⟩

/-- The node list found at runtime under `sampleData.graph.graph.nodes`
after `JSON.parse` of the string literal at App.tsx line 171: the
operations are serde-encoded, so none of them has a `kind` property. -/
def sampleParsedNodes : List ParsedNode :=
  [⟨.obj "InputCiphertext" 0⟩, ⟨.obj "InputCiphertext" 1⟩,
   ⟨.obj "InputCiphertext" 2⟩, ⟨.obj "InputCiphertext" 3⟩,
   ⟨.str "Multiply"⟩, ⟨.str "Multiply"⟩, ⟨.str "Multiply"⟩, ⟨.str "Add"⟩,
   ⟨.str "OutputCiphertext"⟩, ⟨.str "OutputCiphertext"⟩,
   ⟨.str "Relinearize"⟩, ⟨.str "Relinearize"⟩, ⟨.str "Relinearize"⟩]

/-- The 13 parsed edges under `sampleData.graph.graph.edges`. -/
def sampleParsedEdges : List ParsedEdge :=
  [(0, 4, "Left"), (3, 4, "Right"), (1, 5, "Left"), (2, 5, "Right"),
   (1, 6, "Left"), (3, 6, "Right"), (12, 7, "Left"), (10, 7, "Right"),
   (7, 8, "Unary"), (11, 9, "Unary"), (5, 10, "Unary"), (6, 11, "Unary"),
   (4, 12, "Unary")]

/-- The parsed graph object under `sampleData.graph.graph`.  Note that
`App` does not pass this object to `dataToGraph`: it passes the whole
`sampleData` value, which has no `nodes` property at all, so the access
`data.nodes.length` throws a `TypeError` at runtime.  This definition
is the value obtained under the charitable correction of that slip. -/
def sampleParsedGraph : ParsedGraph := ⟨sampleParsedNodes, sampleParsedEdges⟩

/-! ## Well-formedness (spec §3 arity invariants)

The structural preconditions of a well-formed program graph: every edge
endpoint is in range; a `Multiply`/`Add` target has exactly one incoming
`Left` and one incoming `Right` edge and no `Unary`; a
`Relinearize`/`OutputCiphertext` target has exactly one incoming `Unary`
edge; an `InputCiphertext` node has no incoming edges. -/

/-- Number of edges of `g` entering node `t` in operand position `r`. -/
def incomingWith (g : FheProgramGraph) (t : Nat) (r : EdgeType) : Nat :=
  g.edges.countP fun e => e.2.1 == t && e.2.2 == r

/-- Arity demanded of node `i` of `g` by the operation it carries. -/
def nodeArityOk (g : FheProgramGraph) (i : Nat) (nd : FheProgramNode) : Bool :=
  match nd.operation with
  | .inputCiphertext _ =>
      incomingWith g i .Left == 0 && incomingWith g i .Right == 0 &&
      incomingWith g i .Unary == 0
  | .multiply | .add =>
      incomingWith g i .Left == 1 && incomingWith g i .Right == 1 &&
      incomingWith g i .Unary == 0
  | .relinearize | .outputCiphertext =>
      incomingWith g i .Left == 0 && incomingWith g i .Right == 0 &&
      incomingWith g i .Unary == 1

/-- The §3 structural invariants of a `FheProgramGraph`. -/
def wellFormed (g : FheProgramGraph) : Bool :=
  g.edges.all (fun e => decide (e.1 < g.nodes.length) &&
    decide (e.2.1 < g.nodes.length)) &&
  (g.nodes.enum.all fun p => nodeArityOk g p.1 p.2)

/-! ## The selection coordinator (App.tsx lines 169-229)

`App` holds its interaction state in `useState` hooks.  The modelled
state is `selectedLine` / `currGraph` / `selected`; the two remaining
hooks (`vertSize`, `horSize`) belong to the split-pane layout
collaborator, which spec §1 places outside the core.  Handlers are
embedded as state transformers; a transition that additionally throws a
JS exception is paired with `some errorMessage`. -/

/-- The `SelectionT` value reported by the graph panel: its `nodes`
member is a collection of selected node ids, or `null`. -/
structure SelectionT : Type where
  nodes : Option (List Nat)
  edges : Option (List (Nat × Nat)) := none
  deriving DecidableEq

/-- The modelled interaction state of `App`: `selectedLine` (hook at
line 173), `currGraph` (line 176) and `selected` (line 177, nullable). -/
structure AppState : Type where
  selectedLine : Int
  currGraph : GGraph
  selected : Option SelectionT
  deriving DecidableEq

/-- `exGraph = dataToGraph(sampleData, true)` (App.tsx line 172) under
the declared types, i.e. on the typed transcription of the payload's
graph.  (At runtime the argument is the raw `JSON.parse` result; see
`sampleParsedGraph` for that reading.) -/
def exGraph : GGraph := dataToGraph sampleGraph true

/-- The hardcoded two-node graph built inside `updateLine` (App.tsx
lines 182-202) for the clicked `lineNumber`: node 1 is titled
`line <lineNumber>`, node 2 is titled `test_func` with type
`'problematic'`, joined by one directed edge. -/
def lineGraph (lineNumber : Int) : GGraph :=
  { nodes :=
      [{ id := 1, title := "line " ++ toString lineNumber, type := "empty",
         x := some (-10), y := some 0 },
       { id := 2, title := "test_func", type := "problematic",
         x := some 0, y := some 0 }]
    edges :=
      [{ source := 1, target := 2, directed := some true,
         arrowhead := some "normal" }] }

/-- The `updateLine` handler (App.tsx lines 179-205): sets
`selectedLine := lineNumber`, then sets `currGraph` to the hardcoded
two-node graph when `lineNumber !== 1`, and to `exGraph` when
`lineNumber === 1`.  It is total: no input makes it throw. -/
def updateLine (lineNumber : Int) (s : AppState) : AppState :=
  { s with
    selectedLine := lineNumber
    currGraph := if lineNumber ≠ 1 then lineGraph lineNumber else exGraph }

/-- The `updateSelection` handler (App.tsx lines 207-209): it first runs
`select(selection)`, storing the selection, then evaluates
`console.log(selection.nodes?.values().next().value)`.  The optional
chaining guards only the `nodes` member: when `selection` itself is
`null`, the access `selection.nodes` throws a `TypeError` after the
state write.  The result pairs the state after the write with the
thrown error, if any. -/
def updateSelection (selection : Option SelectionT) (s : AppState) :
    AppState × Option String :=
  match selection with
  | none =>
      ({ s with selected := none },
       some "TypeError: Cannot read properties of null (reading nodes)")
  | some sel => ({ s with selected := some sel }, none)

/-- The initial state of `App`: `selectedLine = 0`, `currGraph` the
example graph, `selected = null`. -/
def initialAppState : AppState :=
  { selectedLine := 0, currGraph := exGraph, selected := none }

/-! ## Helper lemmas -/

/-- The node loop emits one render node per input node. -/
theorem buildNodes_length (k : Nat) (l : List FheProgramNode) :
    (buildNodes k l).length = l.length := by
  induction l generalizing k with
  | nil => rfl
  | cons nd rest ih => simp [buildNodes, ih]

/-- The render node at index `i` is the image of the input node at
index `i`. -/
theorem buildNodes_getElem (k i : Nat) (l : List FheProgramNode) :
    (buildNodes k l)[i]? = l[i]?.map fun nd => renderNode (k + i) nd := by
  induction l generalizing k i with
  | nil => simp [buildNodes]
  | cons nd rest ih =>
    cases i with
    | zero => simp [buildNodes]
    | succ j =>
      have h1 : k + 1 + j = k + (j + 1) := by omega
      simp only [buildNodes, List.getElem?_cons_succ, ih (k + 1) j, h1]

/-- Indexed form of the node projection of the translator. -/
theorem dataToGraph_nodes_getElem (g : FheProgramGraph) (b : Bool) (i : Nat) :
    (dataToGraph g b).nodes[i]? = g.nodes[i]?.map fun nd => renderNode i nd := by
  simpa using buildNodes_getElem 0 i g.nodes

/-- The `kind` property of a parsed operation is never a string: a bare
variant-name string has no properties of its own, and a single-key
object maps its key to a number. -/
theorem ParsedOp.kindProp_ne_str (op : ParsedOp) (s : String) :
    op.kindProp ≠ JsVal.str s := by
  cases op with
  | str t => simp [ParsedOp.kindProp]
  | obj k v =>
    simp only [ParsedOp.kindProp]
    split <;> simp

/-- On parsed operations the `'InputCiphertext'` switch case never
fires, so every parsed node is rendered through the fall-through
branch with type `'empty'`. -/
theorem buildNodesParsed_type (k : Nat) (l : List ParsedNode) :
    ∀ rn ∈ buildNodesParsed k l, rn.type = "empty" := by
  induction l generalizing k with
  | nil => simp [buildNodesParsed]
  | cons nd rest ih =>
    intro rn hm
    simp only [buildNodesParsed, List.mem_cons] at hm
    rcases hm with h | h
    · subst h
      rw [renderNodeParsed, if_neg (ParsedOp.kindProp_ne_str nd.operation _)]
    · exact ih (k + 1) rn h

/-! ## Claim theorems -/

/-- Claim C1, counterexample.  The claim says a malformed input — an
edge referencing node index 99 in a 13-node graph, or an unrecognized
operation variant — makes `dataToGraph` yield an `InvalidGraph` error
with no partial output.  In fact the translator has no error exit at
all: on the 13-node sample node list with the out-of-range edge
`[99, 0, 'Left']` it succeeds totally, copying the bad edge verbatim
into the output, and a node whose parsed operation is the unrecognized
variant string `"Bogus"` is not rejected but rendered as a generic
`'empty'` node by the catch-all branch. -/
theorem dataToGraph_accepts_malformed_input :
    (dataToGraph { nodes := sampleNodes, edges := [(99, 0, EdgeType.Left)] }
        true).nodes.length = 13 ∧
    (dataToGraph { nodes := sampleNodes, edges := [(99, 0, EdgeType.Left)] }
        true).edges = [{ source := 99, target := 0, type := some "Left" }] ∧
    (dataToGraphParsed { nodes := [⟨.str "Bogus"⟩], edges := [] }).nodes =
      [{ id := 0, title := "\"Bogus\"", type := "empty" }] :=
  ⟨rfl, rfl, rfl⟩

/-- Claim C1, amended.  The translator performs no validation and can
take no error exit: for every input (malformed or not) it succeeds
fully, emitting one render node per input node and copying every edge
verbatim — out-of-range indices included — and on runtime-parsed
operations every node, the unrecognized variants among them, is
rendered by the fall-through branch as a generic `'empty'` node rather
than rejected. -/
theorem dataToGraph_total_never_rejects (g : FheProgramGraph) (b : Bool)
    (pg : ParsedGraph) :
    (dataToGraph g b).nodes.length = g.nodes.length ∧
    (∀ (i : Nat) (e : FheProgramEdge), g.edges[i]? = some e →
      (dataToGraph g b).edges[i]? =
        some { source := e.1, target := e.2.1, type := some (edgeTypeStr e.2.2) }) ∧
    ∀ rn ∈ (dataToGraphParsed pg).nodes, rn.type = "empty" := by
  refine ⟨buildNodes_length 0 g.nodes, ?_, buildNodesParsed_type 0 pg.nodes⟩
  intro i e he
  simp [dataToGraph, List.getElem?_map, he, renderEdge]

/-- Witness for `dataToGraph_total_never_rejects` at the malformed
concrete graph of the counterexample. -/
theorem dataToGraph_total_never_rejects_witness :
    (dataToGraph { nodes := sampleNodes, edges := [(99, 0, EdgeType.Left)] }
        true).edges[0]? =
      some { source := 99, target := 0, type := some "Left" } ∧
    (GNode.mk 0 "\"Bogus\"" "empty" none none).type = "empty" := by
  have h := dataToGraph_total_never_rejects
    { nodes := sampleNodes, edges := [(99, 0, EdgeType.Left)] } true
    { nodes := [⟨.str "Bogus"⟩], edges := [] }
  exact ⟨h.2.1 0 (99, 0, EdgeType.Left) rfl,
         h.2.2 (GNode.mk 0 "\"Bogus\"" "empty" none none) (by decide)⟩

/-- Claim C2, evaluation at the failing input.  The sample payload is
consumed through `JSON.parse`, whose operation values carry no `kind`
property, so the translator's switch always reaches the fall-through
branch: the runtime render of the payload's graph has 13 nodes and 13
edges, but node 0 has type `'empty'` (not `'input'` as the claim
states) with title `\x7b"InputCiphertext":0\x7d`, and node 7 has type
`'empty'` with title `"Add"`. -/
theorem sample_payload_runtime_render :
    (dataToGraphParsed sampleParsedGraph).nodes.length = 13 ∧
    (dataToGraphParsed sampleParsedGraph).edges.length = 13 ∧
    (dataToGraphParsed sampleParsedGraph).nodes[0]? =
      some { id := 0, title := "\x7b\"InputCiphertext\":0\x7d", type := "empty" } ∧
    (dataToGraphParsed sampleParsedGraph).nodes[7]? =
      some { id := 7, title := "\"Add\"", type := "empty" } :=
  ⟨rfl, rfl, rfl, rfl⟩

/-- Claim C3.  For every node of the input graph: an
`InputCiphertext\x7bslot\x7d` operation yields a render node with type
`'input'` whose title is the slot value; every other variant yields
type `'empty'`; and no node of any input ever yields `'problematic'`. -/
theorem dataToGraph_visual_kinds (g : FheProgramGraph) (b : Bool) (i : Nat)
    (nd : FheProgramNode) (h : g.nodes[i]? = some nd) :
    ∃ rn : GNode, (dataToGraph g b).nodes[i]? = some rn ∧
      rn.type = (match nd.operation with
        | .inputCiphertext _ => "input"
        | _ => "empty") ∧
      (∀ d : Nat, nd.operation = .inputCiphertext d → rn.title = toString d) ∧
      rn.type ≠ "problematic" := by
  refine ⟨renderNode i nd, ?_, ?_, ?_, ?_⟩
  · rw [dataToGraph_nodes_getElem, h]
    rfl
  · obtain ⟨op⟩ := nd
    cases op <;> rfl
  · intro d hd
    obtain ⟨op⟩ := nd
    cases op <;> simp_all [renderNode]
  · obtain ⟨op⟩ := nd
    cases op <;> simp [renderNode]

/-- Witness for `dataToGraph_visual_kinds` at node 0 of the sample
graph (an `InputCiphertext` node with slot 0). -/
theorem dataToGraph_visual_kinds_witness :
    ∃ rn : GNode, (dataToGraph sampleGraph true).nodes[0]? = some rn ∧
      rn.type = "input" ∧
      (∀ d : Nat, FheProgramOperation.inputCiphertext 0 =
        FheProgramOperation.inputCiphertext d → rn.title = toString d) ∧
      rn.type ≠ "problematic" :=
  dataToGraph_visual_kinds sampleGraph true 0 ⟨.inputCiphertext 0⟩ rfl

/-- Claim C4.  For every well-formed input graph the translator is a
structure-preserving projection: output node and edge counts equal the
input counts, and the `i`-th output edge carries exactly the source
index, target index and role of the `i`-th input edge. -/
theorem dataToGraph_structure_preserving (g : FheProgramGraph) (b : Bool)
    (hwf : wellFormed g = true) :
    (dataToGraph g b).nodes.length = g.nodes.length ∧
    (dataToGraph g b).edges.length = g.edges.length ∧
    ∀ (i : Nat) (e : FheProgramEdge), g.edges[i]? = some e →
      (dataToGraph g b).edges[i]? =
        some { source := e.1, target := e.2.1, type := some (edgeTypeStr e.2.2) } := by
  refine ⟨buildNodes_length 0 g.nodes, by simp [dataToGraph], ?_⟩
  intro i e he
  simp [dataToGraph, List.getElem?_map, he, renderEdge]

/-- Witness for `dataToGraph_structure_preserving` at the (well-formed)
sample graph and its first edge `(0, 4, Left)`. -/
theorem dataToGraph_structure_preserving_witness :
    (dataToGraph sampleGraph true).nodes.length = sampleGraph.nodes.length ∧
    (dataToGraph sampleGraph true).edges.length = sampleGraph.edges.length ∧
    (dataToGraph sampleGraph true).edges[0]? =
      some { source := 0, target := 4, type := some "Left" } := by
  have h := dataToGraph_structure_preserving sampleGraph true (by decide)
  exact ⟨h.1, h.2.1, h.2.2 0 (0, 4, EdgeType.Left) rfl⟩

/-- Claim C5, counterexample.  The claim says a line with no entry in
the lookup table falls back to the single `example` (default) graph.
In fact `updateLine 2`, starting from the initial state, replaces
`currGraph` with the hardcoded two-node placeholder graph — not the
example graph the state started with — and `updateLine 3` produces yet
another graph (the placeholder embeds the line number in a title), so
the fallback is neither the example graph nor a single graph. -/
theorem updateLine_fallback_not_example_graph :
    (updateLine 2 initialAppState).currGraph ≠ initialAppState.currGraph ∧
    (updateLine 2 initialAppState).currGraph ≠
      (updateLine 3 initialAppState).currGraph := by
  exact ⟨by decide, by decide⟩

/-- Claim C5, amended.  `updateLine` is total (no integer input can
make it throw), always sets `selectedLine` to the clicked line, and
sets `currGraph` to the hardcoded two-node placeholder graph for that
line when the line differs from 1, and to the example graph when the
line is 1. -/
theorem updateLine_behavior (lineNumber : Int) (s : AppState) :
    (updateLine lineNumber s).selectedLine = lineNumber ∧
    (updateLine lineNumber s).currGraph =
      (if lineNumber ≠ 1 then lineGraph lineNumber else exGraph) :=
  ⟨rfl, rfl⟩

/-- Claim C6, evaluation at the failing input.  `updateSelection`
tolerates an empty selection (`nodes` null or an empty collection)
without error, but a literally null selection argument, although its
state write does land, throws a `TypeError` when the trailing
`console.log` evaluates `selection.nodes`. -/
theorem updateSelection_null_throws :
    (updateSelection none initialAppState).2 =
      some "TypeError: Cannot read properties of null (reading nodes)" ∧
    (updateSelection none initialAppState).1.selected = none ∧
    (updateSelection (some { nodes := none }) initialAppState).2 = none ∧
    (updateSelection (some { nodes := some [] }) initialAppState).2 = none ∧
    (updateSelection (some { nodes := some [] }) initialAppState).1.selected =
      some { nodes := some [] } :=
  ⟨rfl, rfl, rfl, rfl, rfl⟩

/-- Claim C7.  `currGraph` after `updateLine` is a pure function of the
clicked line with no hidden history: replaying the first line after any
interleaved click restores exactly the graph the first click produced
(in particular for lines 1 and 2). -/
theorem updateLine_pure_function_of_line (a b : Int) (s : AppState) :
    (updateLine a (updateLine b (updateLine a s))).currGraph =
      (updateLine a s).currGraph := rfl

/-- Claim C8.  The translator is referentially transparent: its output
is fully determined by the structural content of its input, so two
calls on structurally identical inputs yield structurally identical
render graphs (and the input, being consumed by value in the
embedding, is not mutated). -/
theorem dataToGraph_referentially_transparent (g1 g2 : FheProgramGraph)
    (b1 b2 : Bool) (hn : g1.nodes = g2.nodes) (he : g1.edges = g2.edges) :
    dataToGraph g1 b1 = dataToGraph g2 b2 := by
  cases g1
  cases g2
  cases hn
  cases he
  rfl

/-- Witness for `dataToGraph_referentially_transparent`: translating
the sample graph twice yields identical output. -/
theorem dataToGraph_referentially_transparent_witness :
    dataToGraph sampleGraph true =
      dataToGraph { nodes := sampleNodes, edges := sampleEdges } true :=
  dataToGraph_referentially_transparent sampleGraph
    { nodes := sampleNodes, edges := sampleEdges } true true rfl rfl

/-- Claim C9.  `updateSelection` writes only the selection component of
the state: `selectedLine` and `currGraph` are unchanged by the
transition, for every selection argument (the null one included). -/
theorem updateSelection_frame (selection : Option SelectionT) (s : AppState) :
    (updateSelection selection s).1.selectedLine = s.selectedLine ∧
    (updateSelection selection s).1.currGraph = s.currGraph := by
  cases selection <;> exact ⟨rfl, rfl⟩

/-- Claim C10.  The translator's output is independent of its second
parameter: `incRelin` is never read, so `dataToGraph g true` and
`dataToGraph g false` coincide for every input graph. -/
theorem dataToGraph_ignores_incRelin (g : FheProgramGraph) :
    dataToGraph g true = dataToGraph g false := rfl

end Sunscreen
